import Mathlib

/-!
Verification development for the monkeyonsol voice-server gateway.

The repository is a FastAPI gateway with three routes (`routes/speech_to_text.py`,
`routes/text_to_speech.py`, `routes/chat.py`) dispatching to three provider
clients (`services/groq_service.py`, `services/elevenlabs_service.py`,
`services/openai_tts_service.py`).  Each route is embedded shallowly as a pure
Lean function from the already-parsed request to `Except HTTPError Call`, where
the `Call` value records exactly which Provider Client operation would be
invoked and with which arguments; an `.error` result therefore means that no
Provider Client call is made.  Python floats that are only copied or compared
against decimal literals (chat temperature, voice settings) are modelled as
rationals; byte buffers are lists of naturals below 256.
-/

namespace Monkey

/-- Uniform error shape of `fastapi.HTTPException(status_code, detail)`. -/
structure HTTPError where
  status : Nat
  detail : String
deriving DecidableEq

/-- Python string truthiness-based default: `s or d` for strings. -/
def pyOr (s d : String) : String := if s = "" then d else s

/-- Python truthiness of an `Optional[str]` value (`None` and `""` are falsy). -/
def optTruthy : Option String → Bool
  | none => false
  | some s => !(s == "")

/-- Python `str.strip()`: drop whitespace from both ends. -/
def pyStrip (s : String) : String :=
  ⟨((s.data.dropWhile Char.isWhitespace).reverse.dropWhile Char.isWhitespace).reverse⟩

/-- Python `str.lower()` (ASCII case mapping suffices for the vocabulary the
routes compare against). -/
def pyLower (s : String) : String := ⟨s.data.map Char.toLower⟩

/-- `pat` matches at the head of `s`. -/
def listStarts : List Char → List Char → Bool
  | _, [] => true
  | [], _ :: _ => false
  | a :: s, b :: p => a == b && listStarts s p

/-- Python `str.startswith(pat)`. -/
def pyStartsWith (s pat : String) : Bool := listStarts s.data pat.data

/-- `pat` occurs as a contiguous substring of `s` (used to state whether an
error message mentions a given phrase). -/
def listHasSub : List Char → List Char → Bool
  | [], pat => pat.isEmpty
  | a :: t, pat => listStarts (a :: t) pat || listHasSub t pat

/-! ## Base64 (model of Python `base64.b64decode` / `base64.b64encode`)

`routes/speech_to_text.py` line 62 calls `base64.b64decode(request.audio)`
(default non-strict mode).  We model the standard base64 alphabet, RFC 4648
encoding, and CPython's non-strict `binascii.a2b_base64` decoding discipline:
characters outside the alphabet are skipped, the pad counter is reset to zero
by every data character (only stray pads since the last data character count),
a padding character ends decoding once the current group together with the
padding seen reaches a full quad, and a leftover group at end of input (one
dangling character, or an unpadded partial group) is a decode error. -/

def b64tblList : List Char :=
  ['A', 'B', 'C', 'D', 'E', 'F', 'G', 'H', 'I', 'J', 'K', 'L', 'M',
   'N', 'O', 'P', 'Q', 'R', 'S', 'T', 'U', 'V', 'W', 'X', 'Y', 'Z',
   'a', 'b', 'c', 'd', 'e', 'f', 'g', 'h', 'i', 'j', 'k', 'l', 'm',
   'n', 'o', 'p', 'q', 'r', 's', 't', 'u', 'v', 'w', 'x', 'y', 'z',
   '0', '1', '2', '3', '4', '5', '6', '7', '8', '9', '+', '/']

/-- Sextet value of an alphabet character; `none` for non-alphabet characters. -/
def b64index (c : Char) : Option Nat := b64tblList.findIdx? (· = c)

/-- Bytes recovered from a partial group of 2 or 3 sextets (before padding). -/
def sextetsToBytes : List Nat → List Nat
  | [a, b] => [a * 4 + b / 16]
  | [a, b, c] => [a * 4 + b / 16, b % 16 * 16 + c / 4]
  | _ => []

/-- Bytes of one full quad of sextets. -/
def quadToBytes (a b c d : Nat) : List Nat :=
  [a * 4 + b / 16, b % 16 * 16 + c / 4, c % 4 * 64 + d]

/-- Decoding loop: pending input, current sextet group, padding seen, output. -/
def b64decodeAux : List Char → List Nat → Nat → List Nat → Option (List Nat)
  | [], group, _, acc => if group = [] then some acc else none
  | ch :: rest, group, pads, acc =>
    if ch = '=' then
      if 2 ≤ group.length ∧ 4 ≤ group.length + pads + 1 then
        some (acc ++ sextetsToBytes group)
      else
        b64decodeAux rest group (pads + 1) acc
    else
      match b64index ch with
      | none => b64decodeAux rest group pads acc
      | some v =>
        match group with
        | [a, b, c] => b64decodeAux rest [] 0 (acc ++ quadToBytes a b c v)
        | g => b64decodeAux rest (g ++ [v]) 0 acc

/-- Model of `base64.b64decode`: `none` models the raised `binascii.Error`. -/
def b64decode (s : String) : Option (List Nat) := b64decodeAux s.data [] 0 []

/-! ## Speech-to-text route (`routes/speech_to_text.py`)

The route accepts either a multipart file upload or a JSON body
(`SpeechToTextRequest`), validates the audio buffer, picks a provider from the
model identifier, and invokes exactly one Provider Client transcription
operation.  The embedding returns the call that would be made; an `.error`
result means no Provider Client operation is invoked. -/

/-- A Starlette `UploadFile`; a missing `content_type` is modelled as `""`
(the code substitutes `""` via `getattr(file, "content_type", None) or ""`). -/
structure UploadedFile where
  data : List Nat
  filename : String
  content_type : String
deriving DecidableEq

/-- `schemas.SpeechToTextRequest` (defaults from `schemas.py`). -/
structure SpeechToTextRequest where
  audio : Option String
  format : String := "webm"
  model_id : String := "scribe_v1"
deriving DecidableEq

/-- The transcription call handed to a Provider Client: either
`ElevenLabsService.speech_to_text(audio_data, model_id)` or
`GroqService.transcribe_audio(audio_data, model_id, file_mime_type, filename)`. -/
inductive STTCall where
  | eleven (audio_data : List Nat) (model_id : String)
  | groq (audio_data : List Nat) (model_id : String)
      (file_mime_type : String) (filename : String)
deriving DecidableEq

def STTCall.isEleven : STTCall → Bool
  | .eleven _ _ => true
  | .groq _ _ _ _ => false

/-- The `mime_map` table of `speech_to_text.py` lines 75-82. -/
def mime_map : List (String × String) :=
  [("webm", "audio/webm"), ("wav", "audio/wav"), ("mp3", "audio/mpeg"),
   ("m4a", "audio/m4a"), ("ogg", "audio/ogg"), ("flac", "audio/flac")]

/-- `mime_map.get(key, dflt)`. -/
def mimeGet (key dflt : String) : String :=
  ((mime_map.find? (·.1 = key)).map (·.2)).getD dflt

/-- Extension part of `os.path.splitext(name)` for a bare filename: the suffix
from the last dot, unless every character before that dot is itself a dot
(leading dots of the basename never start an extension). -/
def splitextExt (name : String) : String :=
  match name.data.reverse.findIdx? (· = '.') with
  | none => ""
  | some ridx =>
    let dotIdx := name.data.length - 1 - ridx
    if (name.data.take dotIdx).all (· = '.') then ""
    else String.mk (name.data.drop dotIdx)

/-- Provider decision of `speech_to_text.py` lines 96-104: ElevenLabs models
are `scribe_v1` or anything in the `eleven_` namespace, after trim+lower. -/
def sttUseEleven (model_id : String) : Bool :=
  let normalized := pyLower (pyStrip model_id)
  normalized == "scribe_v1" || pyStartsWith normalized "eleven_"

/-- Lines 106-120: invoke the chosen Provider Client (with Python `or`
defaults on a falsy model id). -/
def sttDispatch (model_id : String) (audio_data : List Nat)
    (content_type filename : String) : Except HTTPError STTCall :=
  if sttUseEleven model_id then
    .ok (.eleven audio_data (pyOr model_id "scribe_v1"))
  else
    .ok (.groq audio_data (pyOr model_id "whisper-large-v3") content_type filename)

/-- `speech_to_text` route handler.  `form_model_id` is the `model_id` form
field (default `"whisper-large-v3"`); in the JSON branch it is overwritten by
`request.model_id` (line 72). -/
def speech_to_text (file : Option UploadedFile) (form_model_id : String)
    (request : Option SpeechToTextRequest) : Except HTTPError STTCall :=
  match file with
  | some f =>
    if f.data.length = 0 then
      .error ⟨400, "Invalid audio data - empty buffer"⟩
    else
      let ext0 := (splitextExt f.filename).data.dropWhile (· = '.')
      let fmt := pyLower (if ext0 = [] then "webm" else String.mk ext0)
      let content_type :=
        mimeGet fmt (if pyStartsWith f.content_type "audio/" then f.content_type
          else "audio/webm")
      sttDispatch form_model_id f.data content_type f.filename
  | none =>
    match request with
    | none => .error ⟨400, "Audio data is required"⟩
    | some req =>
      match req.audio with
      | none => .error ⟨400, "Audio data is required"⟩
      | some a =>
        if a = "" then .error ⟨400, "Audio data is required"⟩
        else
          match b64decode a with
          | none => .error ⟨400, "Invalid base64 audio data"⟩
          | some audio_data =>
            if audio_data.length = 0 then
              .error ⟨400, "Invalid audio data - empty buffer after decoding"⟩
            else
              let fmtl := pyLower (pyOr req.format "webm")
              sttDispatch req.model_id audio_data (mimeGet fmtl "audio/webm")
                ("audio." ++ fmtl)

/-! ## Chat route (`routes/chat.py`)

Temperature is a Python float compared only against the literals 0 and 2; it
is modelled as a rational, which is faithful for those comparisons. -/

structure ChatMessage where
  role : String
  content : String
deriving DecidableEq

/-- `schemas.ChatRequest` as it reaches the route handler. -/
structure ChatRequest where
  messages : List ChatMessage
  model : String := "llama-3.3-70b-versatile"
  temperature : Rat := 7 / 10
  max_tokens : Int := 1024
deriving DecidableEq

/-- The `GroqService.create_chat_completion` call made on success. -/
structure ChatCall where
  messages : List ChatMessage
  model : String
  temperature : Rat
  max_tokens : Int
deriving DecidableEq

/-- `chat` route handler, `chat.py` lines 25-67 (the validation chain and the
single Provider Client call). -/
def chat (request : ChatRequest) : Except HTTPError ChatCall :=
  if request.messages = [] then
    .error ⟨400, "Messages array is required and must be an array"⟩
  else if pyStrip request.model = "" then
    .error ⟨400, "Model must be a non-empty string"⟩
  else if request.temperature < 0 ∨ request.temperature > 2 then
    .error ⟨400, "Temperature must be a number between 0 and 2"⟩
  else if request.max_tokens ≤ 0 then
    .error ⟨400, "max_tokens must be a positive number"⟩
  else
    .ok ⟨request.messages.map (fun m => ⟨m.role, m.content⟩), request.model,
      request.temperature, request.max_tokens⟩

/-! ## Text-to-speech route and services
(`routes/text_to_speech.py`, `services/openai_tts_service.py`,
`services/elevenlabs_service.py`) -/

/-- `schemas.VoiceSettings` (floats in `[0,1]` modelled as rationals; the
dispatcher only copies them). -/
structure VoiceSettings where
  stability : Rat := 3 / 10
  similarity_boost : Rat := 7 / 10
  style : Rat := 8 / 10
  use_speaker_boost : Bool := true
deriving DecidableEq

/-- `schemas.TextToSpeechRequest` (pydantic gives `voice_settings` a default
factory, so the field is always present). -/
structure TextToSpeechRequest where
  text : String
  voice_name : String := "Bill"
  model_id : Option String := none
  voice_settings : VoiceSettings := {}
  provider : String := "elevenlabs"
  format : String := "mp3"
deriving DecidableEq

/-- One entry of the ElevenLabs `/voices` listing. -/
structure Voice where
  voice_id : String
  name : String
deriving DecidableEq

/-- `ElevenLabsService.get_voice_by_name`: linear by-name lookup (an empty or
missing `voices` list yields `None`, exactly like the guard at line 182). -/
def get_voice_by_name (voices : List Voice) (voice_name : String) : Option Voice :=
  voices.find? (fun v => v.name == voice_name)

/-- Environment-derived configuration of `OpenAITTSService.__init__`:
`OPENAI_TTS_MODEL` and `OPENAI_TTS_INSTRUCTIONS` (the latter already
`.strip()`-ed, and defaulting to the literal in the source). -/
structure OpenAIConfig where
  configured_default_model : String := "gpt-4o-mini-tts"
  style_instructions : String := "Speak in a artistic cartoon dog way"
deriving DecidableEq

/-- The default `OpenAIConfig` when neither environment variable is set. -/
def defaultOpenAIConfig : OpenAIConfig := {}

/-- `self.allowed_models` of `OpenAITTSService`. -/
def openai_allowed_models : List String := ["gpt-4o-mini-tts"]

/-- `self.default_model`: the configured model if allowed, else the safe
fallback. -/
def openai_default_model (cfg : OpenAIConfig) : String :=
  if cfg.configured_default_model ∈ openai_allowed_models then
    cfg.configured_default_model
  else "gpt-4o-mini-tts"

/-- The `alias_to_voice` table of `_normalize_voice_name`. -/
def alias_to_voice : List (String × String) :=
  [("boy", "ballad"), ("young", "ballad"), ("kid", "ballad"), ("child", "ballad"),
   ("young_boy", "ballad"), ("young-boy", "ballad")]

/-- The keys of `alias_to_voice` (for stating the alias property). -/
def aliasKeys : List String :=
  ["boy", "young", "kid", "child", "young_boy", "young-boy"]

/-- `OpenAITTSService._normalize_voice_name` (lines 38-52). -/
def normalize_voice_name (voice_name : String) : String :=
  if voice_name = "" then "ballad"
  else
    let name := pyLower (pyStrip voice_name)
    (((alias_to_voice.find? (·.1 = name)).map (·.2)).getD name)

/-- `allowed_voices` of `OpenAITTSService.text_to_speech` (lines 78-90). -/
def openai_allowed_voices : List String :=
  ["alloy", "echo", "fable", "onyx", "nova", "shimmer", "coral", "verse",
   "ballad", "ash", "sage"]

/-- `allowed_formats` of `OpenAITTSService.text_to_speech` (line 98). -/
def openai_allowed_formats : List String :=
  ["mp3", "wav", "ogg", "flac", "aac", "opus", "pcm"]

/-- The `json_payload` posted to the OpenAI `/audio/speech` endpoint. -/
structure OpenAIPayload where
  model : String
  voice : String
  input : String
  format : String
deriving DecidableEq

/-- `OpenAITTSService.text_to_speech` up to the upstream call (lines 66-114):
model validation, voice normalization with fallback, format validation, and
style-instruction prefixing of the input text. -/
def openai_text_to_speech (cfg : OpenAIConfig) (text voice_name : String)
    (model_id : Option String) (output_format : String) : OpenAIPayload :=
  let model := match model_id with
    | some m => if m ≠ "" ∧ m ∈ openai_allowed_models then m
        else openai_default_model cfg
    | none => openai_default_model cfg
  let v := normalize_voice_name voice_name
  let v := if v ∈ openai_allowed_voices then v else "ballad"
  let fmt := if output_format ∈ openai_allowed_formats then output_format else "mp3"
  let prompt_text := if cfg.style_instructions = "" then text
    else "[Style: " ++ cfg.style_instructions ++ "]\n" ++ text
  ⟨model, v, prompt_text, fmt⟩

/-- The ElevenLabs `/text-to-speech/<voice_id>` call. -/
structure ElevenTTSCall where
  voice_id : String
  text : String
  model_id : String
  voice_settings : VoiceSettings
deriving DecidableEq

/-- `ElevenLabsService.text_to_speech` up to the upstream call (lines 126-142):
a falsy `voice_settings` is replaced by the service defaults. -/
def eleven_text_to_speech (text voice_id model_id : String)
    (voice_settings : Option VoiceSettings) : ElevenTTSCall :=
  ⟨voice_id, text, model_id, voice_settings.getD ⟨3 / 10, 7 / 10, 8 / 10, true⟩⟩

/-- The single synthesis call made by the text-to-speech route. -/
inductive TTSCall where
  | openai (payload : OpenAIPayload)
  | eleven (call : ElevenTTSCall)
deriving DecidableEq

/-- Provider selection of `text_to_speech.py` line 22:
`(request.provider or "elevenlabs").lower()`. -/
def ttsProviderChoice (provider : String) : String := pyLower (pyOr provider "elevenlabs")

/-- `", ".join(items)`. -/
def joinComma : List String → String
  | [] => ""
  | [s] => s
  | s :: rest => s ++ ", " ++ joinComma rest

/-- `text_to_speech` route handler (lines 22-89).  `voices` is the listing
returned by `ElevenLabsService.get_voices()` (an external collaborator),
supplied as an input. -/
def text_to_speech (cfg : OpenAIConfig) (voices : List Voice)
    (request : TextToSpeechRequest) : Except HTTPError TTSCall :=
  let provider := ttsProviderChoice request.provider
  if request.text = "" then .error ⟨400, "Text is required"⟩
  else if provider = "openai" then
    let selected_voice := pyOr request.voice_name "echo"
    let model_id := match request.model_id with
      | some m => if m ≠ "" ∧ pyStartsWith m "eleven_" then none else some m
      | none => none
    .ok (.openai (openai_text_to_speech cfg request.text selected_voice model_id
      (pyOr request.format "mp3")))
  else
    match get_voice_by_name voices request.voice_name with
    | none =>
      .error ⟨400, "Voice '" ++ request.voice_name ++ "' not found. Available voices: "
        ++ joinComma (voices.map (·.name))⟩
    | some voice =>
      let model_id := if optTruthy request.model_id then request.model_id.getD ""
        else "eleven_multilingual_v2"
      let model_id := if model_id = "eleven_monolingual_v2" then "eleven_multilingual_v2"
        else model_id
      .ok (.eleven (eleven_text_to_speech request.text voice.voice_id model_id
        (some request.voice_settings)))

/-! ## Base64 lemmas -/

/-- The dispatch step always invokes exactly one Provider Client, chosen by
`sttUseEleven`. -/
theorem sttDispatch_eq (m : String) (d : List Nat) (ct fn : String) :
    sttDispatch m d ct fn =
      .ok (if sttUseEleven m then .eleven d (pyOr m "scribe_v1")
        else .groq d (pyOr m "whisper-large-v3") ct fn) := by
  by_cases h : sttUseEleven m <;> simp [sttDispatch, h]

/-- File-upload branch of the route on a non-empty buffer reaches the dispatch
step. -/
theorem speech_to_text_file (f : UploadedFile) (m : String)
    (hf : ¬ f.data.length = 0) (r? : Option SpeechToTextRequest) :
    speech_to_text (some f) m r? =
      sttDispatch m f.data
        (mimeGet (pyLower (if (splitextExt f.filename).data.dropWhile (· = '.') = []
            then "webm"
            else String.mk ((splitextExt f.filename).data.dropWhile (· = '.'))))
          (if pyStartsWith f.content_type "audio/" then f.content_type
            else "audio/webm"))
        f.filename := by
  simp [speech_to_text, hf]

/-- C1: the speech-to-text dispatch selects the ElevenLabs provider iff the
model identifier, trimmed and lower-cased, equals `"scribe_v1"` or starts with
`"eleven_"`; every other identifier selects the Groq provider, and selection
is total: on a valid buffer the dispatch always reaches exactly one provider
call, for every model identifier string. -/
theorem C1_stt_provider_selection (m : String) (f : UploadedFile)
    (hf : f.data ≠ []) :
    (sttUseEleven m = true ↔
      (pyLower (pyStrip m) = "scribe_v1" ∨ pyStartsWith (pyLower (pyStrip m)) "eleven_" = true)) ∧
    ∃ call, speech_to_text (some f) m none = .ok call ∧
      (call.isEleven = true ↔
        (pyLower (pyStrip m) = "scribe_v1" ∨ pyStartsWith (pyLower (pyStrip m)) "eleven_" = true)) := by
  have hlen : ¬ f.data.length = 0 := by simpa using hf
  have hiff : sttUseEleven m = true ↔
      (pyLower (pyStrip m) = "scribe_v1" ∨ pyStartsWith (pyLower (pyStrip m)) "eleven_" = true) := by
    simp [sttUseEleven]
  refine ⟨hiff, ?_⟩
  rw [speech_to_text_file f m hlen none, sttDispatch_eq]
  by_cases h : sttUseEleven m = true
  · rw [if_pos h]
    exact ⟨_, rfl, by simp [STTCall.isEleven, hiff.mp h]⟩
  · rw [if_neg h]
    refine ⟨_, rfl, ?_⟩
    simp only [STTCall.isEleven]
    exact ⟨fun hc => Bool.noConfusion hc, fun hc => absurd (hiff.mpr hc) h⟩

/-- C1 witness at a concrete upload and model identifier. -/
theorem C1_witness :
    (sttUseEleven "scribe_v1" = true ↔
      (pyLower (pyStrip "scribe_v1") = "scribe_v1" ∨
        pyStartsWith (pyLower (pyStrip "scribe_v1")) "eleven_" = true)) ∧
    ∃ call, speech_to_text (some ⟨[1], "a.webm", "audio/webm"⟩) "scribe_v1" none
        = .ok call ∧
      (call.isEleven = true ↔
        (pyLower (pyStrip "scribe_v1") = "scribe_v1" ∨
          pyStartsWith (pyLower (pyStrip "scribe_v1")) "eleven_" = true)) :=
  C1_stt_provider_selection "scribe_v1" ⟨[1], "a.webm", "audio/webm"⟩ (by decide)

/-- C2 (amended): every empty-buffer request is rejected with status 400
before any Provider Client call (the result is an error, so no `STTCall` is
produced); the detail names an empty buffer for an empty file upload and for
an envelope decoding to zero bytes, while an envelope whose audio string is
itself empty reports `"Audio data is required"` instead. -/
theorem C2_empty_buffer_rejected (f : UploadedFile) (fm : String)
    (req : SpeechToTextRequest) (r? : Option SpeechToTextRequest) (a : String) :
    (f.data = [] → speech_to_text (some f) fm r? =
      .error ⟨400, "Invalid audio data - empty buffer"⟩) ∧
    (req.audio = some a → a ≠ "" → b64decode a = some [] →
      speech_to_text none fm (some req) =
        .error ⟨400, "Invalid audio data - empty buffer after decoding"⟩) ∧
    (req.audio = some "" → speech_to_text none fm (some req) =
      .error ⟨400, "Audio data is required"⟩) := by
  refine ⟨fun h => ?_, fun ha hne hdec => ?_, fun ha => ?_⟩
  · simp [speech_to_text, h]
  · simp [speech_to_text, ha, hne, hdec]
  · simp [speech_to_text, ha]

/-- C2 counterexample to the claim as stated: the envelope whose audio string
is `""` decodes to zero bytes, is rejected with status 400, but its detail
does not mention an empty buffer. -/
theorem C2_counterexample :
    b64decode "" = some [] ∧
    speech_to_text none "whisper-large-v3" (some ⟨some "", "webm", "scribe_v1"⟩) =
      .error ⟨400, "Audio data is required"⟩ ∧
    listHasSub "Audio data is required".data "empty buffer".data = false := by
  refine ⟨rfl, rfl, by decide⟩

/-- C2 witness: concrete empty-buffer requests on both branches. -/
theorem C2_witness :
    speech_to_text (some ⟨[], "a.webm", ""⟩) "whisper-large-v3" none =
      .error ⟨400, "Invalid audio data - empty buffer"⟩ ∧
    speech_to_text none "m" (some ⟨some ".", "webm", "m"⟩) =
      .error ⟨400, "Invalid audio data - empty buffer after decoding"⟩ := by
  refine ⟨?_, ?_⟩
  · exact (C2_empty_buffer_rejected ⟨[], "a.webm", ""⟩ "whisper-large-v3"
      ⟨none, "webm", "m"⟩ none ".").1 rfl
  · exact (C2_empty_buffer_rejected ⟨[], "a.webm", ""⟩ "m"
      ⟨some ".", "webm", "m"⟩ none ".").2.1 rfl (by decide) (by decide)

/-- C8: given a chat request that passes the earlier validation steps
(non-empty messages, non-blank model, positive max_tokens), temperatures 0
and 2 are accepted and the Provider Client is invoked, while -0.01 and 2.01
are rejected with status 400 and the temperature-range detail before any
Provider Client call. -/
theorem C8_chat_temperature_bounds (msgs : List ChatMessage) (model : String)
    (mt : Int) (hm : msgs ≠ []) (hmod : pyStrip model ≠ "") (hmt : 0 < mt) :
    (∃ c, chat ⟨msgs, model, 0, mt⟩ = .ok c) ∧
    (∃ c, chat ⟨msgs, model, 2, mt⟩ = .ok c) ∧
    chat ⟨msgs, model, -(1 / 100), mt⟩ =
      .error ⟨400, "Temperature must be a number between 0 and 2"⟩ ∧
    chat ⟨msgs, model, 201 / 100, mt⟩ =
      .error ⟨400, "Temperature must be a number between 0 and 2"⟩ := by
  have hmt' : ¬ mt ≤ 0 := by omega
  refine ⟨⟨⟨msgs.map (fun m => ⟨m.role, m.content⟩), model, 0, mt⟩, ?_⟩,
    ⟨⟨msgs.map (fun m => ⟨m.role, m.content⟩), model, 2, mt⟩, ?_⟩, ?_, ?_⟩
  · simp only [chat]
    rw [if_neg hm, if_neg hmod, if_neg (by norm_num), if_neg hmt']
  · simp only [chat]
    rw [if_neg hm, if_neg hmod, if_neg (by norm_num), if_neg hmt']
  · simp only [chat]
    rw [if_neg hm, if_neg hmod, if_pos (by norm_num)]
  · simp only [chat]
    rw [if_neg hm, if_neg hmod, if_pos (by norm_num)]

/-- C8 witness at a concrete message list, model and token budget. -/
theorem C8_witness :
    (∃ c, chat ⟨[⟨"user", "hi"⟩], "llama-3.3-70b-versatile", 0, 1024⟩ = .ok c) ∧
    (∃ c, chat ⟨[⟨"user", "hi"⟩], "llama-3.3-70b-versatile", 2, 1024⟩ = .ok c) ∧
    chat ⟨[⟨"user", "hi"⟩], "llama-3.3-70b-versatile", -(1 / 100), 1024⟩ =
      .error ⟨400, "Temperature must be a number between 0 and 2"⟩ ∧
    chat ⟨[⟨"user", "hi"⟩], "llama-3.3-70b-versatile", 201 / 100, 1024⟩ =
      .error ⟨400, "Temperature must be a number between 0 and 2"⟩ :=
  C8_chat_temperature_bounds [⟨"user", "hi"⟩] "llama-3.3-70b-versatile" 1024
    (by decide) (by decide) (by decide)

/-! ## Text-to-speech helper lemmas -/

/-- The service default model is always the safe literal (its allow-list is a
singleton). -/
theorem openai_default_model_eq (cfg : OpenAIConfig) :
    openai_default_model cfg = "gpt-4o-mini-tts" := by
  unfold openai_default_model openai_allowed_models
  by_cases h : cfg.configured_default_model = "gpt-4o-mini-tts" <;> simp [h]

/-- Alias keys resolve to `"ballad"`. -/
theorem normalize_alias (v : String) (h : pyLower (pyStrip v) ∈ aliasKeys) :
    normalize_voice_name v = "ballad" := by
  have hv : ¬ v = "" := by
    intro hc
    rw [hc] at h
    revert h
    decide
  simp only [aliasKeys, List.mem_cons, List.not_mem_nil, or_false] at h
  rcases h with h | h | h | h | h | h <;>
    simp [normalize_voice_name, if_neg hv, h, alias_to_voice]

/-- A non-alias name normalizes to its trimmed lower-cased form. -/
theorem normalize_nonalias (v : String) (hv : v ≠ "")
    (h : pyLower (pyStrip v) ∉ aliasKeys) :
    normalize_voice_name v = pyLower (pyStrip v) := by
  have hfind : alias_to_voice.find? (·.1 = pyLower (pyStrip v)) = none := by
    rw [List.find?_eq_none]
    intro x hx
    simp only [aliasKeys, List.mem_cons, List.not_mem_nil, or_false, not_or] at h
    simp only [alias_to_voice, List.mem_cons, List.not_mem_nil, or_false] at hx
    rcases hx with rfl | rfl | rfl | rfl | rfl | rfl <;>
      simp only [decide_eq_true_eq]
    exacts [fun hc => h.1 hc.symm, fun hc => h.2.1 hc.symm,
      fun hc => h.2.2.1 hc.symm, fun hc => h.2.2.2.1 hc.symm,
      fun hc => h.2.2.2.2.1 hc.symm, fun hc => h.2.2.2.2.2 hc.symm]
  simp [normalize_voice_name, hv, hfind]

/-- OpenAI branch of the route reaches the OpenAI service with the
route-normalized arguments. -/
theorem tts_openai_branch (cfg : OpenAIConfig) (voices : List Voice)
    (r : TextToSpeechRequest) (ht : ¬ r.text = "")
    (hp : ttsProviderChoice r.provider = "openai") :
    text_to_speech cfg voices r =
      .ok (.openai (openai_text_to_speech cfg r.text (pyOr r.voice_name "echo")
        (match r.model_id with
          | some m => if m ≠ "" ∧ pyStartsWith m "eleven_" then none else some m
          | none => none)
        (pyOr r.format "mp3"))) := by
  simp [text_to_speech, ht, hp]

/-- ElevenLabs branch with a found voice reaches the ElevenLabs service. -/
theorem tts_eleven_branch (cfg : OpenAIConfig) (voices : List Voice)
    (r : TextToSpeechRequest) (voice : Voice) (ht : ¬ r.text = "")
    (hp : ¬ ttsProviderChoice r.provider = "openai")
    (hv : get_voice_by_name voices r.voice_name = some voice) :
    text_to_speech cfg voices r =
      .ok (.eleven (eleven_text_to_speech r.text voice.voice_id
        (if (if optTruthy r.model_id then r.model_id.getD ""
              else "eleven_multilingual_v2") = "eleven_monolingual_v2"
          then "eleven_multilingual_v2"
          else (if optTruthy r.model_id then r.model_id.getD ""
              else "eleven_multilingual_v2"))
        (some r.voice_settings))) := by
  simp [text_to_speech, ht, hp, hv]

/-- ElevenLabs branch with no matching voice fails before any synthesis call. -/
theorem tts_voice_not_found (cfg : OpenAIConfig) (voices : List Voice)
    (r : TextToSpeechRequest) (ht : ¬ r.text = "")
    (hp : ¬ ttsProviderChoice r.provider = "openai")
    (hv : get_voice_by_name voices r.voice_name = none) :
    text_to_speech cfg voices r =
      .error ⟨400, "Voice '" ++ r.voice_name ++ "' not found. Available voices: "
        ++ joinComma (voices.map (·.name))⟩ := by
  simp [text_to_speech, ht, hp, hv]

/-- C3: on the OpenAI path the voice sent upstream is the trimmed,
lower-cased, alias-resolved requested name when that is an allowed voice and
the fallback `"ballad"` otherwise; the aliases resolve to `"ballad"`; the
result is always an allowed voice (normalization is total and never fails);
and through the route `voiceName="boy"` yields upstream voice `"ballad"`. -/
theorem C3_openai_voice_normalization (cfg : OpenAIConfig) (v text fmt : String)
    (mid : Option String) (voices : List Voice) (vs : VoiceSettings)
    (ht : text ≠ "") :
    (openai_text_to_speech cfg text v mid fmt).voice ∈ openai_allowed_voices ∧
    (pyLower (pyStrip v) ∈ aliasKeys →
      (openai_text_to_speech cfg text v mid fmt).voice = "ballad") ∧
    (pyLower (pyStrip v) ∉ aliasKeys →
      pyLower (pyStrip v) ∈ openai_allowed_voices →
      (openai_text_to_speech cfg text v mid fmt).voice = pyLower (pyStrip v)) ∧
    (pyLower (pyStrip v) ∉ aliasKeys →
      pyLower (pyStrip v) ∉ openai_allowed_voices →
      (openai_text_to_speech cfg text v mid fmt).voice = "ballad") ∧
    ∃ p, text_to_speech cfg voices ⟨text, "boy", mid, vs, "openai", fmt⟩ =
        .ok (.openai p) ∧ p.voice = "ballad" := by
  have hvoice : (openai_text_to_speech cfg text v mid fmt).voice =
      if normalize_voice_name v ∈ openai_allowed_voices then normalize_voice_name v
      else "ballad" := rfl
  refine ⟨?_, fun h => ?_, fun h1 h2 => ?_, fun h1 h2 => ?_, ?_⟩
  · rw [hvoice]
    by_cases hmem : normalize_voice_name v ∈ openai_allowed_voices
    · rw [if_pos hmem]
      exact hmem
    · rw [if_neg hmem]
      decide
  · rw [hvoice, normalize_alias v h, if_pos (by decide)]
  · have hv0 : v ≠ "" := by
      intro hc
      rw [hc] at h2
      revert h2
      decide
    rw [hvoice, normalize_nonalias v hv0 h1, if_pos h2]
  · by_cases hv0 : v = ""
    · rw [hvoice, hv0]
      decide
    · rw [hvoice, normalize_nonalias v hv0 h1, if_neg h2]
  · rw [tts_openai_branch cfg voices ⟨text, "boy", mid, vs, "openai", fmt⟩ ht
      (by decide : ttsProviderChoice "openai" = "openai")]
    refine ⟨_, rfl, ?_⟩
    have hb : normalize_voice_name (pyOr "boy" "echo") = "ballad" :=
      normalize_alias _ (by decide)
    show (if normalize_voice_name (pyOr "boy" "echo") ∈ openai_allowed_voices
      then normalize_voice_name (pyOr "boy" "echo") else "ballad") = "ballad"
    rw [hb, if_pos (by decide)]

/-- C3 witness at a concrete configuration and request. -/
theorem C3_witness :
    (openai_text_to_speech defaultOpenAIConfig "hello" "boy" none "mp3").voice
        ∈ openai_allowed_voices ∧
    (pyLower (pyStrip "boy") ∈ aliasKeys →
      (openai_text_to_speech defaultOpenAIConfig "hello" "boy" none "mp3").voice
        = "ballad") ∧
    ∃ p, text_to_speech defaultOpenAIConfig []
          ⟨"hello", "boy", none, {}, "openai", "mp3"⟩ =
        .ok (.openai p) ∧ p.voice = "ballad" := by
  have h := C3_openai_voice_normalization defaultOpenAIConfig "boy" "hello" "mp3"
    none [] {} (by decide)
  exact ⟨h.1, h.2.1, h.2.2.2.2⟩

/-- C5: text-to-speech provider selection lower-cases the provider string
(with `"elevenlabs"` substituted for an empty one) and takes the OpenAI path
exactly when the result is `"openai"`; every other value takes the ElevenLabs
default path (whose only failure is the voice-not-found validation error), and
the selection itself is a total function. -/
theorem C5_tts_provider_selection (cfg : OpenAIConfig) (voices : List Voice)
    (r : TextToSpeechRequest) (ht : r.text ≠ "") :
    ttsProviderChoice r.provider =
      pyLower (if r.provider = "" then "elevenlabs" else r.provider) ∧
    (ttsProviderChoice r.provider = "openai" →
      ∃ p, text_to_speech cfg voices r = .ok (.openai p)) ∧
    (ttsProviderChoice r.provider ≠ "openai" →
      (∃ c, text_to_speech cfg voices r = .ok (.eleven c)) ∨
      text_to_speech cfg voices r =
        .error ⟨400, "Voice '" ++ r.voice_name ++ "' not found. Available voices: "
          ++ joinComma (voices.map (·.name))⟩) := by
  refine ⟨rfl, fun hp => ⟨_, tts_openai_branch cfg voices r ht hp⟩, fun hp => ?_⟩
  cases hv : get_voice_by_name voices r.voice_name with
  | none => exact Or.inr (tts_voice_not_found cfg voices r ht hp hv)
  | some voice => exact Or.inl ⟨_, tts_eleven_branch cfg voices r voice ht hp hv⟩

/-- C5 witness: a concrete request with `provider="OpenAI"` (exercising the
lower-casing) and one with an unrecognized provider string. -/
theorem C5_witness :
    (∃ p, text_to_speech defaultOpenAIConfig [⟨"v1", "Bill"⟩]
        ⟨"hi", "Bill", none, {}, "OpenAI", "mp3"⟩ = .ok (.openai p)) ∧
    ((∃ c, text_to_speech defaultOpenAIConfig [⟨"v1", "Bill"⟩]
        ⟨"hi", "Bill", none, {}, "weird-provider", "mp3"⟩ = .ok (.eleven c)) ∨
      text_to_speech defaultOpenAIConfig [⟨"v1", "Bill"⟩]
        ⟨"hi", "Bill", none, {}, "weird-provider", "mp3"⟩ =
        .error ⟨400, "Voice '" ++ "Bill" ++ "' not found. Available voices: "
          ++ joinComma (([⟨"v1", "Bill"⟩] : List Voice).map (·.name))⟩) := by
  constructor
  · exact (C5_tts_provider_selection defaultOpenAIConfig [⟨"v1", "Bill"⟩]
      ⟨"hi", "Bill", none, {}, "OpenAI", "mp3"⟩ (by decide)).2.1 (by decide)
  · exact (C5_tts_provider_selection defaultOpenAIConfig [⟨"v1", "Bill"⟩]
      ⟨"hi", "Bill", none, {}, "weird-provider", "mp3"⟩ (by decide)).2.2 (by decide)

/-- C6: on the OpenAI path a request model id in the ElevenLabs `eleven_`
namespace is discarded and the OpenAI default model is put in the upstream
payload instead (in particular the payload model differs from the request
model id). -/
theorem C6_openai_ignores_eleven_model (cfg : OpenAIConfig) (voices : List Voice)
    (r : TextToSpeechRequest) (m : String) (hm : r.model_id = some m)
    (hpre : pyStartsWith m "eleven_" = true) (ht : r.text ≠ "")
    (hp : ttsProviderChoice r.provider = "openai") :
    ∃ p, text_to_speech cfg voices r = .ok (.openai p) ∧
      p.model = openai_default_model cfg ∧ p.model ≠ m := by
  have hne : m ≠ "" := by
    intro hc
    rw [hc] at hpre
    exact absurd hpre (by decide)
  have hmid : (match r.model_id with
      | some m' => if m' ≠ "" ∧ pyStartsWith m' "eleven_" then none else some m'
      | none => none) = (none : Option String) := by
    rw [hm]
    exact if_pos ⟨hne, hpre⟩
  rw [tts_openai_branch cfg voices r ht hp]
  refine ⟨_, rfl, ?_, ?_⟩
  · rw [hmid]
    rfl
  · rw [hmid]
    show openai_default_model cfg ≠ m
    rw [openai_default_model_eq]
    intro hc
    rw [← hc] at hpre
    exact absurd hpre (by decide)

/-- C6 witness at a concrete request carrying an ElevenLabs model id. -/
theorem C6_witness :
    ∃ p, text_to_speech defaultOpenAIConfig []
        ⟨"hi", "Bill", some "eleven_multilingual_v2", {}, "openai", "mp3"⟩ =
      .ok (.openai p) ∧
      p.model = openai_default_model defaultOpenAIConfig ∧
      p.model ≠ "eleven_multilingual_v2" :=
  C6_openai_ignores_eleven_model defaultOpenAIConfig []
    ⟨"hi", "Bill", some "eleven_multilingual_v2", {}, "openai", "mp3"⟩
    "eleven_multilingual_v2" rfl (by decide) (by decide) (by decide)

/-- C7: on the ElevenLabs path a requested voice name matching no entry of the
available-voices list fails with status 400, a detail naming the voice and
enumerating the available voice names, and no synthesis call is made. -/
theorem C7_eleven_voice_not_found (cfg : OpenAIConfig) (voices : List Voice)
    (r : TextToSpeechRequest) (ht : r.text ≠ "")
    (hp : ttsProviderChoice r.provider ≠ "openai")
    (hv : ∀ v ∈ voices, v.name ≠ r.voice_name) :
    text_to_speech cfg voices r =
      .error ⟨400, "Voice '" ++ r.voice_name ++ "' not found. Available voices: "
        ++ joinComma (voices.map (·.name))⟩ := by
  have hfind : get_voice_by_name voices r.voice_name = none := by
    rw [get_voice_by_name, List.find?_eq_none]
    intro x hx
    simpa using hv x hx
  exact tts_voice_not_found cfg voices r ht hp hfind

/-- C7 witness at a concrete voice list missing the requested name. -/
theorem C7_witness :
    text_to_speech defaultOpenAIConfig [⟨"v1", "Alice"⟩]
        ⟨"hi", "Bob", none, {}, "elevenlabs", "mp3"⟩ =
      .error ⟨400, "Voice '" ++ "Bob" ++ "' not found. Available voices: "
        ++ joinComma (([⟨"v1", "Alice"⟩] : List Voice).map (·.name))⟩ :=
  C7_eleven_voice_not_found defaultOpenAIConfig [⟨"v1", "Alice"⟩]
    ⟨"hi", "Bob", none, {}, "elevenlabs", "mp3"⟩ (by decide) (by decide)
    (by decide)

/-- C9: the OpenAI payload input is `"[Style: <instructions>]\n"` followed by
the caller's text whenever the configured style instructions are non-empty
(which holds for the default configuration), and the verbatim text exactly
when they are empty. -/
theorem C9_style_instructions_prepended (cfg : OpenAIConfig)
    (text vn fmt : String) (mid : Option String) :
    (cfg.style_instructions ≠ "" →
      (openai_text_to_speech cfg text vn mid fmt).input =
        "[Style: " ++ cfg.style_instructions ++ "]\n" ++ text) ∧
    (cfg.style_instructions = "" →
      (openai_text_to_speech cfg text vn mid fmt).input = text) ∧
    defaultOpenAIConfig.style_instructions = "Speak in a artistic cartoon dog way" ∧
    defaultOpenAIConfig.style_instructions ≠ "" := by
  have hin : (openai_text_to_speech cfg text vn mid fmt).input =
      if cfg.style_instructions = "" then text
      else "[Style: " ++ cfg.style_instructions ++ "]\n" ++ text := rfl
  refine ⟨fun h => ?_, fun h => ?_, rfl, by decide⟩
  · rw [hin, if_neg h]
  · rw [hin, if_pos h]

/-- C9 witness: the default configuration prefixes, and an empty instruction
string passes the text through. -/
theorem C9_witness :
    (openai_text_to_speech defaultOpenAIConfig "hello" "boy" none "mp3").input =
      "[Style: " ++ defaultOpenAIConfig.style_instructions ++ "]\n" ++ "hello" ∧
    (openai_text_to_speech ⟨"gpt-4o-mini-tts", ""⟩ "hello" "boy" none "mp3").input =
      "hello" :=
  ⟨(C9_style_instructions_prepended defaultOpenAIConfig "hello" "boy" "mp3"
      none).1 (by decide),
   (C9_style_instructions_prepended ⟨"gpt-4o-mini-tts", ""⟩ "hello" "boy" "mp3"
      none).2.1 rfl⟩

/-- C10 (amended): on the ElevenLabs path with a found voice, a model id of
exactly `"eleven_monolingual_v2"` is replaced by `"eleven_multilingual_v2"`,
an absent **or empty** model id defaults to `"eleven_multilingual_v2"`, and
every other supplied non-empty model id is forwarded unchanged. -/
theorem C10_eleven_model_resolution (cfg : OpenAIConfig) (voices : List Voice)
    (r : TextToSpeechRequest) (voice : Voice) (ht : r.text ≠ "")
    (hp : ttsProviderChoice r.provider ≠ "openai")
    (hv : get_voice_by_name voices r.voice_name = some voice) :
    ((r.model_id = none ∨ r.model_id = some "" ∨
        r.model_id = some "eleven_monolingual_v2") →
      text_to_speech cfg voices r = .ok (.eleven ⟨voice.voice_id, r.text,
        "eleven_multilingual_v2", r.voice_settings⟩)) ∧
    (∀ m, r.model_id = some m → m ≠ "" → m ≠ "eleven_monolingual_v2" →
      text_to_speech cfg voices r = .ok (.eleven ⟨voice.voice_id, r.text, m,
        r.voice_settings⟩)) := by
  have hcall := tts_eleven_branch cfg voices r voice ht hp hv
  constructor
  · rintro (hmid | hmid | hmid) <;> rw [hcall, hmid] <;> rfl
  · intro m hmid hm0 hmono
    rw [hcall, hmid]
    have h1 : optTruthy (some m) = true := by simp [optTruthy, hm0]
    simp only [h1, if_true, Option.getD_some]
    rw [if_neg hmono]
    rfl

/-- C10 counterexample to the claim as stated: the supplied model id `""` is
not forwarded unchanged but silently replaced by the default. -/
theorem C10_counterexample :
    text_to_speech defaultOpenAIConfig [⟨"v1", "Bill"⟩]
        ⟨"hi", "Bill", some "", {}, "elevenlabs", "mp3"⟩ =
      .ok (.eleven ⟨"v1", "hi", "eleven_multilingual_v2", {}⟩) ∧
    ("" : String) ≠ "eleven_multilingual_v2" := by
  exact ⟨rfl, by decide⟩

/-- C10 witness: the three resolution behaviours at concrete requests. -/
theorem C10_witness :
    text_to_speech defaultOpenAIConfig [⟨"v1", "Bill"⟩]
        ⟨"hi", "Bill", none, {}, "elevenlabs", "mp3"⟩ =
      .ok (.eleven ⟨"v1", "hi", "eleven_multilingual_v2", {}⟩) ∧
    text_to_speech defaultOpenAIConfig [⟨"v1", "Bill"⟩]
        ⟨"hi", "Bill", some "eleven_monolingual_v2", {}, "elevenlabs", "mp3"⟩ =
      .ok (.eleven ⟨"v1", "hi", "eleven_multilingual_v2", {}⟩) ∧
    text_to_speech defaultOpenAIConfig [⟨"v1", "Bill"⟩]
        ⟨"hi", "Bill", some "custom_model", {}, "elevenlabs", "mp3"⟩ =
      .ok (.eleven ⟨"v1", "hi", "custom_model", {}⟩) := by
  refine ⟨?_, ?_, ?_⟩
  · exact (C10_eleven_model_resolution defaultOpenAIConfig [⟨"v1", "Bill"⟩]
      ⟨"hi", "Bill", none, {}, "elevenlabs", "mp3"⟩ ⟨"v1", "Bill"⟩ (by decide)
      (by decide) (by decide)).1 (Or.inl rfl)
  · exact (C10_eleven_model_resolution defaultOpenAIConfig [⟨"v1", "Bill"⟩]
      ⟨"hi", "Bill", some "eleven_monolingual_v2", {}, "elevenlabs", "mp3"⟩
      ⟨"v1", "Bill"⟩ (by decide) (by decide) (by decide)).1 (Or.inr (Or.inr rfl))
  · exact (C10_eleven_model_resolution defaultOpenAIConfig [⟨"v1", "Bill"⟩]
      ⟨"hi", "Bill", some "custom_model", {}, "elevenlabs", "mp3"⟩
      ⟨"v1", "Bill"⟩ (by decide) (by decide) (by decide)).2 "custom_model" rfl
      (by decide) (by decide)

end Monkey

